import Mathlib

/-!
Shallow embedding of the two provisioning scripts of the repository
(src/create_resources.py, here called the "simple" variant, and
src/storage-simulator/create_resources.py, the "rich" variant).

Each script performs a fixed sequence of SDK calls against a local storage
emulator, catches exceptions at one or two boundaries, and prints status
lines.  The embedding models:
  - the SDK as an oracle (structures S3Sdk, AzureSdk) whose calls either
    return a value or raise, carrying an explicit emulator state of type σ;
  - each Python statement sequence as a function producing a trace of
    events (printed lines and attempted SDK calls) plus the final state;
  - a try/except block as a body function whose result carries an
    Option String exception component, wrapped by a handler that turns a
    propagating exception into a printed line (the Python except clause);
  - the Python substring test in membership checks on error text.
-/

namespace Infimount

/-! ### Printed message constants (verbatim from the source) -/

def s3Header : String := "Creating S3 bucket..."

def s3CreatedMsg : String := "✅ S3 Bucket \x27test-bucket\x27 created"

def s3AlreadyExistsMsg : String := "ℹ️ S3 Bucket already exists"

def s3UploadMsg : String := "✅ S3 Upload successful via Boto3"

def s3ErrorMsg (e : String) : String := "❌ S3 Error: " ++ e

def bucketsMsg (bs : List String) : String := "Buckets: " ++ toString bs

def azureHeader : String := "Creating Azure container..."

def azureCreatedMsg : String := "✅ Azure Container \x27test-container\x27 created"

def azureAlreadyExistsMsg : String := "ℹ️ Azure Container already exists"

def azureErrorMsg (e : String) : String := "❌ Azure Error: " ++ e

def azureScriptErrorMsg (e : String) : String := "❌ Azure Script Error: " ++ e

/-- The connection string constant shared verbatim by both scripts. -/
def connection_string : String :=
  "DefaultEndpointsProtocol=http;AccountName=devstoreaccount1;AccountKey=Eby8vdM02xNOcqFlqUwJPLlmEtlCDXJ1OUzFT50uSRZ6IFsuFq2UVErCz4I6tq/K1SZFPTOtr/KBHBeksoGMGw==;BlobEndpoint=http://localhost:10000/devstoreaccount1;"

/-! ### Client configuration (the keyword arguments of boto3.client) -/

structure S3Config where
  endpoint_url : String
  aws_access_key_id : String
  aws_secret_access_key : String
  region_name : String
  addressing_style : Option String
deriving DecidableEq

/-- boto3.client arguments of the simple variant (src/create_resources.py). -/
def simpleS3Config : S3Config :=
  ⟨"http://127.0.0.1:8333", "admin", "password123", "us-east-1", none⟩

/-- boto3.client arguments of the rich variant (path-style addressing). -/
def richS3Config : S3Config :=
  ⟨"http://localhost:8333", "admin", "password123", "us-east-1", some "path"⟩

/-! ### Traces: printed lines and attempted SDK calls, in program order -/

inductive Event where
  | print (line : String)
  | callClientInit (cfg : S3Config)
  | callListBuckets
  | callCreateBucket (bucket : String)
  | callPutObject (bucket key body : String)
  | callFromConnectionString (conn : String)
  | callGetContainerClient (name : String)
  | callCreateContainer (name : String)
deriving DecidableEq

def Event.isCall : Event → Bool
  | .print _ => false
  | _ => true

/-! ### The SDK oracle: every call either returns or raises (error text) -/

structure S3Sdk (σ : Type) where
  clientInit : S3Config → Except String Unit
  listBuckets : σ → Except String (List String × σ)
  createBucket : String → σ → Except String σ
  putObject : String → String → String → σ → Except String σ

structure AzureSdk (σ : Type) where
  fromConnectionString : String → Except String Unit
  getContainerClient : String → Except String Unit
  createContainer : String → σ → Except String σ

/-! ### The Python substring test `pat in s` -/

/-- Whether the first list is an initial segment of the second. -/
def isPre : List Char → List Char → Bool
  | [], _ => true
  | _ :: _, [] => false
  | a :: ps, b :: ss => a == b && isPre ps ss

/-- Whether pat occurs contiguously somewhere in the list. -/
def hasSub (pat : List Char) : List Char → Bool
  | [] => isPre pat []
  | c :: ss => isPre pat (c :: ss) || hasSub pat ss

/-- The Python expression `pat in s` on strings (substring containment). -/
def strContains (s pat : String) : Bool := hasSub pat.data s.data

/-- The duplicate-bucket test of the rich variant:
`"BucketAlreadyExists" in str(e) or "BucketNameUnavailable" in str(e)`. -/
def bucketExistsErr (e : String) : Bool :=
  strContains e "BucketAlreadyExists" || strContains e "BucketNameUnavailable"

/-! ### The simple variant (src/create_resources.py) -/

/-- Body of the try block of the simple create_s3_bucket (lines 10-17):
build the client, call create_bucket, print the success line.  The
Option String component is the exception propagating out of the block. -/
def s3SimpleBody {σ : Type} (sdk : S3Sdk σ) (s0 : σ) : List Event × σ × Option String :=
  match sdk.clientInit simpleS3Config with
  | .error e => ([Event.callClientInit simpleS3Config], s0, some e)
  | .ok _ =>
    match sdk.createBucket "test-bucket" s0 with
    | .ok s1 =>
      ([Event.callClientInit simpleS3Config, Event.callCreateBucket "test-bucket",
        Event.print s3CreatedMsg], s1, none)
    | .error e =>
      ([Event.callClientInit simpleS3Config, Event.callCreateBucket "test-bucket"], s0, some e)

/-- create_s3_bucket of the simple variant: print the header, run the try
block, and at the function boundary turn a propagating exception into the
printed line `❌ S3 Error: e`. -/
def create_s3_bucket_simple {σ : Type} (sdk : S3Sdk σ) (s0 : σ) : List Event × σ :=
  match s3SimpleBody sdk s0 with
  | (ev, s1, none) => (Event.print s3Header :: ev, s1)
  | (ev, s1, some e) => (Event.print s3Header :: (ev ++ [Event.print (s3ErrorMsg e)]), s1)

/-! ### The rich variant (src/storage-simulator/create_resources.py) -/

/-- The upload step of the rich variant (lines 30-31): attempt put_object;
on failure the exception propagates to the function boundary. -/
def s3UploadStep {σ : Type} (sdk : S3Sdk σ) (s : σ) : List Event × σ × Option String :=
  match sdk.putObject "test-bucket" "test_file_boto.txt" "Hello Boto3" s with
  | .ok s2 =>
    ([Event.callPutObject "test-bucket" "test_file_boto.txt" "Hello Boto3",
      Event.print s3UploadMsg], s2, none)
  | .error e =>
    ([Event.callPutObject "test-bucket" "test_file_boto.txt" "Hello Boto3"], s, some e)

/-- Body of the outer try block of the rich create_s3_bucket (lines 12-31):
build the client, list buckets and print them, then the inner try block
around create_bucket (duplicate errors are downgraded to an informational
line, all other creation errors are re-raised), then the upload step. -/
def s3RichBody {σ : Type} (sdk : S3Sdk σ) (s0 : σ) : List Event × σ × Option String :=
  match sdk.clientInit richS3Config with
  | .error e => ([Event.callClientInit richS3Config], s0, some e)
  | .ok _ =>
    match sdk.listBuckets s0 with
    | .error e => ([Event.callClientInit richS3Config, Event.callListBuckets], s0, some e)
    | .ok (bs, s1) =>
      let ev2 := [Event.callClientInit richS3Config, Event.callListBuckets,
                  Event.print (bucketsMsg bs), Event.callCreateBucket "test-bucket"]
      match sdk.createBucket "test-bucket" s1 with
      | .ok s2 =>
        let u := s3UploadStep sdk s2
        (ev2 ++ [Event.print s3CreatedMsg] ++ u.1, u.2)
      | .error e =>
        if bucketExistsErr e then
          let u := s3UploadStep sdk s1
          (ev2 ++ [Event.print s3AlreadyExistsMsg] ++ u.1, u.2)
        else (ev2, s1, some e)

/-- create_s3_bucket of the rich variant: print the header, run the outer
try block, and at the function boundary turn a propagating exception into
the printed line `❌ S3 Error: e`. -/
def create_s3_bucket_rich {σ : Type} (sdk : S3Sdk σ) (s0 : σ) : List Event × σ :=
  match s3RichBody sdk s0 with
  | (ev, s1, none) => (Event.print s3Header :: ev, s1)
  | (ev, s1, some e) => (Event.print s3Header :: (ev ++ [Event.print (s3ErrorMsg e)]), s1)

/-! ### create_azure_container (textually identical in both scripts) -/

/-- Body of the outer try block of create_azure_container: obtain the
blob-service handle and the container handle, then the inner try block
around create_container; a duplicate-container error prints the
informational line, any other creation error prints `❌ Azure Error: e`
right there (the inner except clause), so only handle-acquisition
failures propagate out of this body. -/
def azureBody {σ : Type} (sdk : AzureSdk σ) (s0 : σ) : List Event × σ × Option String :=
  match sdk.fromConnectionString connection_string with
  | .error e => ([Event.callFromConnectionString connection_string], s0, some e)
  | .ok _ =>
    match sdk.getContainerClient "test-container" with
    | .error e =>
      ([Event.callFromConnectionString connection_string,
        Event.callGetContainerClient "test-container"], s0, some e)
    | .ok _ =>
      let ev2 := [Event.callFromConnectionString connection_string,
                  Event.callGetContainerClient "test-container",
                  Event.callCreateContainer "test-container"]
      match sdk.createContainer "test-container" s0 with
      | .ok s1 => (ev2 ++ [Event.print azureCreatedMsg], s1, none)
      | .error e =>
        if strContains e "ContainerAlreadyExists" then
          (ev2 ++ [Event.print azureAlreadyExistsMsg], s0, none)
        else (ev2 ++ [Event.print (azureErrorMsg e)], s0, none)

/-- create_azure_container: print the header, run the outer try block, and
at the function boundary turn a propagating exception into the printed
line `❌ Azure Script Error: e`. -/
def create_azure_container {σ : Type} (sdk : AzureSdk σ) (s0 : σ) : List Event × σ :=
  match azureBody sdk s0 with
  | (ev, s1, none) => (Event.print azureHeader :: ev, s1)
  | (ev, s1, some e) => (Event.print azureHeader :: (ev ++ [Event.print (azureScriptErrorMsg e)]), s1)

/-! ### The main blocks of the two scripts -/

/-- The `if __name__ == "__main__"` block of the simple script:
create_s3_bucket then create_azure_container, sequentially. -/
def main_simple {σ₁ σ₂ : Type} (s3sdk : S3Sdk σ₁) (azsdk : AzureSdk σ₂)
    (s0 : σ₁) (a0 : σ₂) : List Event × σ₁ × σ₂ :=
  let r1 := create_s3_bucket_simple s3sdk s0
  let r2 := create_azure_container azsdk a0
  (r1.1 ++ r2.1, r1.2, r2.2)

/-- The `if __name__ == "__main__"` block of the rich script. -/
def main_rich {σ₁ σ₂ : Type} (s3sdk : S3Sdk σ₁) (azsdk : AzureSdk σ₂)
    (s0 : σ₁) (a0 : σ₂) : List Event × σ₁ × σ₂ :=
  let r1 := create_s3_bucket_rich s3sdk s0
  let r2 := create_azure_container azsdk a0
  (r1.1 ++ r2.1, r1.2, r2.2)

/-! ### Emulator models (the external services the scripts talk to) -/

/-- Modelled from the spec: the S3-compatible emulator is external code
(not under src/); per the spec, a duplicate create reports an error whose
text contains BucketAlreadyExists, and operations on a reachable emulator
otherwise succeed. -/
def s3ExistsErr : String :=
  "An error occurred (BucketAlreadyExists) when calling the CreateBucket operation"

def s3NoBucketErr : String :=
  "An error occurred (NoSuchBucket) when calling the PutObject operation"

structure S3State where
  buckets : List String
  objects : List (String × String × String)
deriving DecidableEq

/-- Look up the body of the object most recently put under (bucket, key). -/
def getObject (s : S3State) (b k : String) : Option String :=
  (s.objects.find? (fun o => o.1 == b && o.2.1 == k)).map (fun o => o.2.2)

/-- Modelled from the spec: a reachable, well-behaved S3-compatible
emulator.  Duplicate bucket creation raises with BucketAlreadyExists in
the message; put_object into an existing bucket overwrites the object. -/
def emuS3 : S3Sdk S3State where
  clientInit := fun _ => .ok ()
  listBuckets := fun s => .ok (s.buckets, s)
  createBucket := fun b s =>
    if b ∈ s.buckets then .error s3ExistsErr
    else .ok ⟨s.buckets ++ [b], s.objects⟩
  putObject := fun b k body s =>
    if b ∈ s.buckets then .ok ⟨s.buckets, (b, k, body) :: s.objects⟩
    else .error s3NoBucketErr

def azExistsErr : String :=
  "The specified container already exists. ErrorCode: ContainerAlreadyExists"

structure AzState where
  containers : List String
deriving DecidableEq

/-- Modelled from the spec: a reachable, well-behaved Azure blob emulator.
Duplicate container creation raises with ContainerAlreadyExists in the
message. -/
def emuAzure : AzureSdk AzState where
  fromConnectionString := fun _ => .ok ()
  getContainerClient := fun _ => .ok ()
  createContainer := fun c s =>
    if c ∈ s.containers then .error azExistsErr
    else .ok ⟨s.containers ++ [c]⟩

/-! ### Concrete failing oracles (used to instantiate the theorems) -/

def connRefused : String := "Could not connect to the endpoint URL"

def badConnErr : String := "Connection string is either blank or malformed."

def uploadBoom : String := "An error occurred (InternalError) when calling the PutObject operation"

/-- An S3 endpoint that is unreachable: every network call raises. -/
def connFailS3 : S3Sdk Unit where
  clientInit := fun _ => .ok ()
  listBuckets := fun _ => .error connRefused
  createBucket := fun _ _ => .error connRefused
  putObject := fun _ _ _ _ => .error connRefused

/-- An Azure SDK whose connection-string parsing raises. -/
def badAzure : AzureSdk Unit where
  fromConnectionString := fun _ => .error badConnErr
  getContainerClient := fun _ => .ok ()
  createContainer := fun _ _ => .error connRefused

/-- An Azure SDK whose get_container_client raises. -/
def badClientAzure : AzureSdk Unit where
  fromConnectionString := fun _ => .ok ()
  getContainerClient := fun _ => .error badConnErr
  createContainer := fun _ _ => .error connRefused

/-- An Azure oracle that is reachable for handle construction but whose
container creation raises a non-duplicate error. -/
def azCreateFail : AzureSdk Unit where
  fromConnectionString := fun _ => .ok ()
  getContainerClient := fun _ => .ok ()
  createContainer := fun _ _ => .error connRefused

/-- The reachable emulator except that put_object raises. -/
def upFailS3 : S3Sdk S3State :=
  { emuS3 with putObject := fun _ _ _ _ => .error uploadBoom }

/-- A reachable S3 oracle whose create_bucket raises a non-duplicate
error. -/
def createFailS3 : S3Sdk S3State :=
  { emuS3 with createBucket := fun _ _ => .error connRefused }

/-- A reachable S3 oracle whose list_buckets raises. -/
def listFailS3 : S3Sdk S3State :=
  { emuS3 with listBuckets := fun _ => .error connRefused }

/-- The full sequence of SDK calls the rich create_s3_bucket can attempt,
in program order. -/
def richCalls : List Event :=
  [Event.callClientInit richS3Config, Event.callListBuckets,
   Event.callCreateBucket "test-bucket",
   Event.callPutObject "test-bucket" "test_file_boto.txt" "Hello Boto3"]

/-! ### Helper lemmas -/

lemma data_head_append (p t : String) (c : Char) (cs : List Char) (h : p.data = c :: cs) :
    (p ++ t).data.head? = some c := by
  rw [String.data_append, h]
  rfl

lemma ne_of_data_head {a b : String} (h : a.data.head? ≠ b.data.head?) : a ≠ b :=
  fun hab => h (by rw [hab])

lemma s3ErrorMsg_head (e : String) : (s3ErrorMsg e).data.head? = some '❌' := by
  rw [s3ErrorMsg]
  exact data_head_append _ _ _ (" S3 Error: ".data) (by decide)

lemma bucketsMsg_head (bs : List String) : (bucketsMsg bs).data.head? = some 'B' := by
  rw [bucketsMsg]
  exact data_head_append _ _ _ ("uckets: ".data) (by decide)

lemma s3ErrorMsg_ne_header (e : String) : s3ErrorMsg e ≠ s3Header :=
  ne_of_data_head (by rw [s3ErrorMsg_head]; decide)

lemma s3ErrorMsg_ne_bucketsMsg (e : String) (bs : List String) :
    s3ErrorMsg e ≠ bucketsMsg bs :=
  ne_of_data_head (by rw [s3ErrorMsg_head, bucketsMsg_head]; decide)

lemma s3ErrorMsg_ne_already (e : String) : s3ErrorMsg e ≠ s3AlreadyExistsMsg :=
  ne_of_data_head (by rw [s3ErrorMsg_head]; decide)

lemma s3ErrorMsg_ne_upload (e : String) : s3ErrorMsg e ≠ s3UploadMsg :=
  ne_of_data_head (by rw [s3ErrorMsg_head]; decide)

/-- Running the rich provisioner against the emulator when test-bucket
already exists: the duplicate error is downgraded and the upload still
happens, overwriting the object. -/
lemma rich_emu_run_mem (s0 : S3State) (h : "test-bucket" ∈ s0.buckets) :
    create_s3_bucket_rich emuS3 s0 =
      ([Event.print s3Header, Event.callClientInit richS3Config, Event.callListBuckets,
        Event.print (bucketsMsg s0.buckets), Event.callCreateBucket "test-bucket",
        Event.print s3AlreadyExistsMsg,
        Event.callPutObject "test-bucket" "test_file_boto.txt" "Hello Boto3",
        Event.print s3UploadMsg],
       ⟨s0.buckets, ("test-bucket", "test_file_boto.txt", "Hello Boto3") :: s0.objects⟩) := by
  have hb : bucketExistsErr s3ExistsErr = true := by decide
  simp [create_s3_bucket_rich, s3RichBody, s3UploadStep, emuS3, h, hb]

/-- Running the rich provisioner against the emulator when test-bucket
does not exist yet: the bucket is created and the object uploaded. -/
lemma rich_emu_run_notmem (s0 : S3State) (h : "test-bucket" ∉ s0.buckets) :
    create_s3_bucket_rich emuS3 s0 =
      ([Event.print s3Header, Event.callClientInit richS3Config, Event.callListBuckets,
        Event.print (bucketsMsg s0.buckets), Event.callCreateBucket "test-bucket",
        Event.print s3CreatedMsg,
        Event.callPutObject "test-bucket" "test_file_boto.txt" "Hello Boto3",
        Event.print s3UploadMsg],
       ⟨s0.buckets ++ ["test-bucket"],
        ("test-bucket", "test_file_boto.txt", "Hello Boto3") :: s0.objects⟩) := by
  simp [create_s3_bucket_rich, s3RichBody, s3UploadStep, emuS3, h]

lemma getObject_cons_self (bs : List String) (os : List (String × String × String)) :
    getObject ⟨bs, ("test-bucket", "test_file_boto.txt", "Hello Boto3") :: os⟩
      "test-bucket" "test_file_boto.txt" = some "Hello Boto3" := by
  simp [getObject, List.find?]

lemma upload_mem {σ : Type} (sdk : S3Sdk σ) (s : σ) :
    Event.callPutObject "test-bucket" "test_file_boto.txt" "Hello Boto3" ∈
      (s3UploadStep sdk s).1 := by
  rcases h : sdk.putObject "test-bucket" "test_file_boto.txt" "Hello Boto3" s with e | s2 <;>
    simp [s3UploadStep, h]

/-! ### The claims -/

/-- Claim C1: for every invocation of the provisioners and every exception
raised by the underlying SDK calls (an unreachable endpoint included), no
exception propagates out of the provisioner: whatever exception escapes
the try-block body is caught at the function boundary, formatted into the
printed error line, and swallowed, the function returning normally (its
result type has no exception component), so the process terminates
normally. -/
theorem claim_C1 :
    (∀ {σ : Type} (sdk : S3Sdk σ) (s0 : σ) {ev : List Event} {s1 : σ} {e : String},
      s3SimpleBody sdk s0 = (ev, s1, some e) →
      create_s3_bucket_simple sdk s0 =
        (Event.print s3Header :: (ev ++ [Event.print (s3ErrorMsg e)]), s1)) ∧
    (∀ {σ : Type} (sdk : S3Sdk σ) (s0 : σ) {ev : List Event} {s1 : σ} {e : String},
      s3RichBody sdk s0 = (ev, s1, some e) →
      create_s3_bucket_rich sdk s0 =
        (Event.print s3Header :: (ev ++ [Event.print (s3ErrorMsg e)]), s1)) ∧
    (∀ {σ : Type} (sdk : AzureSdk σ) (s0 : σ) {ev : List Event} {s1 : σ} {e : String},
      azureBody sdk s0 = (ev, s1, some e) →
      create_azure_container sdk s0 =
        (Event.print azureHeader :: (ev ++ [Event.print (azureScriptErrorMsg e)]), s1)) := by
  refine ⟨?_, ?_, ?_⟩
  · intro σ sdk s0 ev s1 e h
    unfold create_s3_bucket_simple
    rw [h]
  · intro σ sdk s0 ev s1 e h
    unfold create_s3_bucket_rich
    rw [h]
  · intro σ sdk s0 ev s1 e h
    unfold create_azure_container
    rw [h]

theorem claim_C1_witness :
    create_s3_bucket_simple connFailS3 () =
      (Event.print s3Header ::
        ([Event.callClientInit simpleS3Config, Event.callCreateBucket "test-bucket"] ++
          [Event.print (s3ErrorMsg connRefused)]), ()) ∧
    create_s3_bucket_rich connFailS3 () =
      (Event.print s3Header ::
        ([Event.callClientInit richS3Config, Event.callListBuckets] ++
          [Event.print (s3ErrorMsg connRefused)]), ()) ∧
    create_azure_container badAzure () =
      (Event.print azureHeader ::
        ([Event.callFromConnectionString connection_string] ++
          [Event.print (azureScriptErrorMsg badConnErr)]), ()) :=
  ⟨claim_C1.1 connFailS3 () rfl, claim_C1.2.1 connFailS3 () rfl, claim_C1.2.2 badAzure () rfl⟩

/-- Claim C2: a creation error whose text contains BucketAlreadyExists or
BucketNameUnavailable (rich S3 variant) resp. ContainerAlreadyExists
(Azure) is classified as an already-exists condition and downgraded to
the informational printed line; a creation error without these substrings
is reported through the error line. -/
theorem claim_C2 :
    (∀ {σ : Type} (sdk : S3Sdk σ) (s0 : σ) {bs : List String} {s1 : σ} {e : String},
      sdk.clientInit richS3Config = .ok () →
      sdk.listBuckets s0 = .ok (bs, s1) →
      sdk.createBucket "test-bucket" s1 = .error e →
      bucketExistsErr e = true →
      ∃ rest, (create_s3_bucket_rich sdk s0).1 =
        [Event.print s3Header, Event.callClientInit richS3Config, Event.callListBuckets,
         Event.print (bucketsMsg bs), Event.callCreateBucket "test-bucket",
         Event.print s3AlreadyExistsMsg] ++ rest) ∧
    (∀ {σ : Type} (sdk : S3Sdk σ) (s0 : σ) {bs : List String} {s1 : σ} {e : String},
      sdk.clientInit richS3Config = .ok () →
      sdk.listBuckets s0 = .ok (bs, s1) →
      sdk.createBucket "test-bucket" s1 = .error e →
      bucketExistsErr e = false →
      create_s3_bucket_rich sdk s0 =
        ([Event.print s3Header, Event.callClientInit richS3Config, Event.callListBuckets,
          Event.print (bucketsMsg bs), Event.callCreateBucket "test-bucket",
          Event.print (s3ErrorMsg e)], s1)) ∧
    (∀ {σ : Type} (sdk : AzureSdk σ) (s0 : σ) {e : String},
      sdk.fromConnectionString connection_string = .ok () →
      sdk.getContainerClient "test-container" = .ok () →
      sdk.createContainer "test-container" s0 = .error e →
      strContains e "ContainerAlreadyExists" = true →
      create_azure_container sdk s0 =
        ([Event.print azureHeader, Event.callFromConnectionString connection_string,
          Event.callGetContainerClient "test-container",
          Event.callCreateContainer "test-container",
          Event.print azureAlreadyExistsMsg], s0)) ∧
    (∀ {σ : Type} (sdk : AzureSdk σ) (s0 : σ) {e : String},
      sdk.fromConnectionString connection_string = .ok () →
      sdk.getContainerClient "test-container" = .ok () →
      sdk.createContainer "test-container" s0 = .error e →
      strContains e "ContainerAlreadyExists" = false →
      create_azure_container sdk s0 =
        ([Event.print azureHeader, Event.callFromConnectionString connection_string,
          Event.callGetContainerClient "test-container",
          Event.callCreateContainer "test-container",
          Event.print (azureErrorMsg e)], s0)) := by
  refine ⟨?_, ?_, ?_, ?_⟩
  · intro σ sdk s0 bs s1 e h1 h2 h3 h4
    rcases hu : s3UploadStep sdk s1 with ⟨uev, us, uo⟩
    cases uo with
    | none =>
      exact ⟨uev, by simp [create_s3_bucket_rich, s3RichBody, h1, h2, h3, h4, hu]⟩
    | some e2 =>
      exact ⟨uev ++ [Event.print (s3ErrorMsg e2)],
        by simp [create_s3_bucket_rich, s3RichBody, h1, h2, h3, h4, hu]⟩
  · intro σ sdk s0 bs s1 e h1 h2 h3 h4
    simp [create_s3_bucket_rich, s3RichBody, h1, h2, h3, h4]
  · intro σ sdk s0 e h1 h2 h3 h4
    simp [create_azure_container, azureBody, h1, h2, h3, h4]
  · intro σ sdk s0 e h1 h2 h3 h4
    simp [create_azure_container, azureBody, h1, h2, h3, h4]

theorem claim_C2_witness :
    (∃ rest, (create_s3_bucket_rich emuS3 ⟨["test-bucket"], []⟩).1 =
      [Event.print s3Header, Event.callClientInit richS3Config, Event.callListBuckets,
       Event.print (bucketsMsg ["test-bucket"]), Event.callCreateBucket "test-bucket",
       Event.print s3AlreadyExistsMsg] ++ rest) ∧
    create_s3_bucket_rich createFailS3 ⟨[], []⟩ =
      ([Event.print s3Header, Event.callClientInit richS3Config, Event.callListBuckets,
        Event.print (bucketsMsg []), Event.callCreateBucket "test-bucket",
        Event.print (s3ErrorMsg connRefused)], ⟨[], []⟩) ∧
    create_azure_container emuAzure ⟨["test-container"]⟩ =
      ([Event.print azureHeader, Event.callFromConnectionString connection_string,
        Event.callGetContainerClient "test-container",
        Event.callCreateContainer "test-container",
        Event.print azureAlreadyExistsMsg], ⟨["test-container"]⟩) ∧
    create_azure_container azCreateFail () =
      ([Event.print azureHeader, Event.callFromConnectionString connection_string,
        Event.callGetContainerClient "test-container",
        Event.callCreateContainer "test-container",
        Event.print (azureErrorMsg connRefused)], ()) :=
  ⟨claim_C2.1 emuS3 ⟨["test-bucket"], []⟩ rfl rfl rfl (by decide),
   claim_C2.2.1 createFailS3 ⟨[], []⟩ rfl rfl rfl (by decide),
   claim_C2.2.2.1 emuAzure ⟨["test-container"]⟩ rfl rfl rfl (by decide),
   claim_C2.2.2.2 azCreateFail () rfl rfl rfl (by decide)⟩

/-- Claim C3, counterexample: the claim speaks of either variant, but the
simple variant run against an emulator that already holds test-bucket
prints the error line, and its code has no already-exists informational
line at all. -/
theorem claim_C3_counterexample :
    Event.print s3AlreadyExistsMsg ∉ (create_s3_bucket_simple emuS3 ⟨["test-bucket"], []⟩).1 ∧
    Event.print (s3ErrorMsg s3ExistsErr) ∈
      (create_s3_bucket_simple emuS3 ⟨["test-bucket"], []⟩).1 := by
  decide

/-- Claim C3, amended: against an emulator already holding test-bucket,
the rich variant never raises past its boundary and prints the
already-exists informational line and no error line; the simple variant
also never raises past its boundary but reports the duplicate through its
error line instead of an informational one. -/
theorem claim_C3 :
    (∀ s0 : S3State, "test-bucket" ∈ s0.buckets →
      create_s3_bucket_rich emuS3 s0 =
        ([Event.print s3Header, Event.callClientInit richS3Config, Event.callListBuckets,
          Event.print (bucketsMsg s0.buckets), Event.callCreateBucket "test-bucket",
          Event.print s3AlreadyExistsMsg,
          Event.callPutObject "test-bucket" "test_file_boto.txt" "Hello Boto3",
          Event.print s3UploadMsg],
         ⟨s0.buckets, ("test-bucket", "test_file_boto.txt", "Hello Boto3") :: s0.objects⟩) ∧
      (∀ e, Event.print (s3ErrorMsg e) ∉ (create_s3_bucket_rich emuS3 s0).1)) ∧
    (∀ s0 : S3State, "test-bucket" ∈ s0.buckets →
      create_s3_bucket_simple emuS3 s0 =
        ([Event.print s3Header, Event.callClientInit simpleS3Config,
          Event.callCreateBucket "test-bucket", Event.print (s3ErrorMsg s3ExistsErr)], s0)) := by
  refine ⟨?_, ?_⟩
  · intro s0 h
    refine ⟨rich_emu_run_mem s0 h, ?_⟩
    intro e hmem
    rw [rich_emu_run_mem s0 h] at hmem
    simp only [List.mem_cons, List.not_mem_nil, or_false, Event.print.injEq] at hmem
    rcases hmem with h1 | h1 | h1 | h1 | h1 | h1 | h1 | h1
    · exact s3ErrorMsg_ne_header e h1
    · exact Event.noConfusion h1
    · exact Event.noConfusion h1
    · exact s3ErrorMsg_ne_bucketsMsg e s0.buckets h1
    · exact Event.noConfusion h1
    · exact s3ErrorMsg_ne_already e h1
    · exact Event.noConfusion h1
    · exact s3ErrorMsg_ne_upload e h1
  · intro s0 h
    simp [create_s3_bucket_simple, s3SimpleBody, emuS3, h]

theorem claim_C3_witness :
    create_s3_bucket_rich emuS3 ⟨["test-bucket"], []⟩ =
      ([Event.print s3Header, Event.callClientInit richS3Config, Event.callListBuckets,
        Event.print (bucketsMsg ["test-bucket"]), Event.callCreateBucket "test-bucket",
        Event.print s3AlreadyExistsMsg,
        Event.callPutObject "test-bucket" "test_file_boto.txt" "Hello Boto3",
        Event.print s3UploadMsg],
       ⟨["test-bucket"], [("test-bucket", "test_file_boto.txt", "Hello Boto3")]⟩) ∧
    Event.print (s3ErrorMsg connRefused) ∉
      (create_s3_bucket_rich emuS3 ⟨["test-bucket"], []⟩).1 ∧
    create_s3_bucket_simple emuS3 ⟨["test-bucket"], []⟩ =
      ([Event.print s3Header, Event.callClientInit simpleS3Config,
        Event.callCreateBucket "test-bucket", Event.print (s3ErrorMsg s3ExistsErr)],
       ⟨["test-bucket"], []⟩) :=
  ⟨(claim_C3.1 ⟨["test-bucket"], []⟩ (by decide)).1,
   (claim_C3.1 ⟨["test-bucket"], []⟩ (by decide)).2 connRefused,
   claim_C3.2 ⟨["test-bucket"], []⟩ (by decide)⟩

/-- Claim C4: in the rich variant, whenever the run against the emulator
completes without reaching the error path of the outer boundary, the
final emulator state holds the object test_file_boto.txt in test-bucket
with body Hello Boto3 and the upload success line is printed. -/
theorem claim_C4 :
    ∀ s0 : S3State, (s3RichBody emuS3 s0).2.2 = none →
      getObject (create_s3_bucket_rich emuS3 s0).2 "test-bucket" "test_file_boto.txt" =
        some "Hello Boto3" ∧
      Event.print s3UploadMsg ∈ (create_s3_bucket_rich emuS3 s0).1 := by
  intro s0 _
  by_cases h : "test-bucket" ∈ s0.buckets
  · rw [rich_emu_run_mem s0 h]
    exact ⟨getObject_cons_self _ _, by simp⟩
  · rw [rich_emu_run_notmem s0 h]
    exact ⟨getObject_cons_self _ _, by simp⟩

theorem claim_C4_witness :
    getObject (create_s3_bucket_rich emuS3 ⟨[], []⟩).2 "test-bucket" "test_file_boto.txt" =
      some "Hello Boto3" ∧
    Event.print s3UploadMsg ∈ (create_s3_bucket_rich emuS3 ⟨[], []⟩).1 :=
  claim_C4 ⟨[], []⟩ rfl

/-- Claim C5: in the rich variant the attempted SDK calls always form a
prefix of the order client init, list buckets, create bucket, put object;
and an upload failure is reported through the same single outer
error-reporting path and the same error line as a creation failure. -/
theorem claim_C5 :
    (∀ {σ : Type} (sdk : S3Sdk σ) (s0 : σ), ∃ n,
      ((create_s3_bucket_rich sdk s0).1.filter Event.isCall) = richCalls.take n) ∧
    (∀ {σ : Type} (sdk : S3Sdk σ) (s0 : σ) {bs : List String} {s1 s2 : σ} {e : String},
      sdk.clientInit richS3Config = .ok () →
      sdk.listBuckets s0 = .ok (bs, s1) →
      sdk.createBucket "test-bucket" s1 = .ok s2 →
      sdk.putObject "test-bucket" "test_file_boto.txt" "Hello Boto3" s2 = .error e →
      create_s3_bucket_rich sdk s0 =
        ([Event.print s3Header, Event.callClientInit richS3Config, Event.callListBuckets,
          Event.print (bucketsMsg bs), Event.callCreateBucket "test-bucket",
          Event.print s3CreatedMsg,
          Event.callPutObject "test-bucket" "test_file_boto.txt" "Hello Boto3",
          Event.print (s3ErrorMsg e)], s2)) ∧
    (∀ {σ : Type} (sdk : S3Sdk σ) (s0 : σ) {bs : List String} {s1 : σ} {e e2 : String},
      sdk.clientInit richS3Config = .ok () →
      sdk.listBuckets s0 = .ok (bs, s1) →
      sdk.createBucket "test-bucket" s1 = .error e →
      bucketExistsErr e = true →
      sdk.putObject "test-bucket" "test_file_boto.txt" "Hello Boto3" s1 = .error e2 →
      create_s3_bucket_rich sdk s0 =
        ([Event.print s3Header, Event.callClientInit richS3Config, Event.callListBuckets,
          Event.print (bucketsMsg bs), Event.callCreateBucket "test-bucket",
          Event.print s3AlreadyExistsMsg,
          Event.callPutObject "test-bucket" "test_file_boto.txt" "Hello Boto3",
          Event.print (s3ErrorMsg e2)], s1)) := by
  refine ⟨?_, ?_, ?_⟩
  · intro σ sdk s0
    rcases h1 : sdk.clientInit richS3Config with e | u
    · exact ⟨1, by simp [create_s3_bucket_rich, s3RichBody, h1, Event.isCall, richCalls]⟩
    · rcases h2 : sdk.listBuckets s0 with e | ⟨bs, s1⟩
      · exact ⟨2, by simp [create_s3_bucket_rich, s3RichBody, h1, h2, Event.isCall, richCalls]⟩
      · rcases h3 : sdk.createBucket "test-bucket" s1 with e | s2
        · cases h4 : bucketExistsErr e
          · exact ⟨3, by simp [create_s3_bucket_rich, s3RichBody, h1, h2, h3, h4,
              Event.isCall, richCalls]⟩
          · rcases h5 : sdk.putObject "test-bucket" "test_file_boto.txt" "Hello Boto3" s1
              with e2 | s3
            · exact ⟨4, by simp [create_s3_bucket_rich, s3RichBody, s3UploadStep, h1, h2, h3,
                h4, h5, Event.isCall, richCalls]⟩
            · exact ⟨4, by simp [create_s3_bucket_rich, s3RichBody, s3UploadStep, h1, h2, h3,
                h4, h5, Event.isCall, richCalls]⟩
        · rcases h5 : sdk.putObject "test-bucket" "test_file_boto.txt" "Hello Boto3" s2
            with e2 | s3
          · exact ⟨4, by simp [create_s3_bucket_rich, s3RichBody, s3UploadStep, h1, h2, h3,
              h5, Event.isCall, richCalls]⟩
          · exact ⟨4, by simp [create_s3_bucket_rich, s3RichBody, s3UploadStep, h1, h2, h3,
              h5, Event.isCall, richCalls]⟩
  · intro σ sdk s0 bs s1 s2 e h1 h2 h3 h4
    simp [create_s3_bucket_rich, s3RichBody, s3UploadStep, h1, h2, h3, h4]
  · intro σ sdk s0 bs s1 e e2 h1 h2 h3 h4 h5
    simp [create_s3_bucket_rich, s3RichBody, s3UploadStep, h1, h2, h3, h4, h5]

theorem claim_C5_witness :
    (∃ n, ((create_s3_bucket_rich emuS3 ⟨[], []⟩).1.filter Event.isCall) = richCalls.take n) ∧
    create_s3_bucket_rich upFailS3 ⟨[], []⟩ =
      ([Event.print s3Header, Event.callClientInit richS3Config, Event.callListBuckets,
        Event.print (bucketsMsg []), Event.callCreateBucket "test-bucket",
        Event.print s3CreatedMsg,
        Event.callPutObject "test-bucket" "test_file_boto.txt" "Hello Boto3",
        Event.print (s3ErrorMsg uploadBoom)], ⟨["test-bucket"], []⟩) ∧
    create_s3_bucket_rich upFailS3 ⟨["test-bucket"], []⟩ =
      ([Event.print s3Header, Event.callClientInit richS3Config, Event.callListBuckets,
        Event.print (bucketsMsg ["test-bucket"]), Event.callCreateBucket "test-bucket",
        Event.print s3AlreadyExistsMsg,
        Event.callPutObject "test-bucket" "test_file_boto.txt" "Hello Boto3",
        Event.print (s3ErrorMsg uploadBoom)], ⟨["test-bucket"], []⟩) :=
  ⟨claim_C5.1 emuS3 ⟨[], []⟩,
   claim_C5.2.1 upFailS3 ⟨[], []⟩ rfl rfl rfl rfl,
   claim_C5.2.2 upFailS3 ⟨["test-bucket"], []⟩ rfl rfl rfl (by decide) rfl⟩

/-- Claim C6: a failure in obtaining the blob-service or container handle
is caught by the outer boundary and reported through the Azure Script
Error line, which differs from the Azure Error line of the inner
container-creation boundary for every error text. -/
theorem claim_C6 :
    (∀ {σ : Type} (sdk : AzureSdk σ) (s0 : σ) {e : String},
      sdk.fromConnectionString connection_string = .error e →
      create_azure_container sdk s0 =
        ([Event.print azureHeader, Event.callFromConnectionString connection_string,
          Event.print (azureScriptErrorMsg e)], s0)) ∧
    (∀ {σ : Type} (sdk : AzureSdk σ) (s0 : σ) {e : String},
      sdk.fromConnectionString connection_string = .ok () →
      sdk.getContainerClient "test-container" = .error e →
      create_azure_container sdk s0 =
        ([Event.print azureHeader, Event.callFromConnectionString connection_string,
          Event.callGetContainerClient "test-container",
          Event.print (azureScriptErrorMsg e)], s0)) ∧
    (∀ e : String, azureScriptErrorMsg e ≠ azureErrorMsg e) := by
  refine ⟨?_, ?_, ?_⟩
  · intro σ sdk s0 e h1
    simp [create_azure_container, azureBody, h1]
  · intro σ sdk s0 e h1 h2
    simp [create_azure_container, azureBody, h1, h2]
  · intro e h
    have h2 := congrArg String.length h
    rw [azureScriptErrorMsg, azureErrorMsg, String.length_append, String.length_append] at h2
    have l1 : ("❌ Azure Script Error: " : String).length = 22 := by decide
    have l2 : ("❌ Azure Error: " : String).length = 15 := by decide
    rw [l1, l2] at h2
    omega

theorem claim_C6_witness :
    create_azure_container badAzure () =
      ([Event.print azureHeader, Event.callFromConnectionString connection_string,
        Event.print (azureScriptErrorMsg badConnErr)], ()) ∧
    create_azure_container badClientAzure () =
      ([Event.print azureHeader, Event.callFromConnectionString connection_string,
        Event.callGetContainerClient "test-container",
        Event.print (azureScriptErrorMsg badConnErr)], ()) ∧
    azureScriptErrorMsg connRefused ≠ azureErrorMsg connRefused :=
  ⟨claim_C6.1 badAzure () rfl, claim_C6.2.1 badClientAzure () rfl rfl,
   claim_C6.2.2 connRefused⟩

/-- Claim C7: under main, the S3 provisioner runs to completion before
the Azure provisioner begins (the trace is the concatenation of the two
runs, S3 first), and the Azure result is a function of the Azure oracle
and state alone, unaffected by the S3 oracle, state, or outcome. -/
theorem claim_C7 :
    (∀ {σ₁ σ₂ : Type} (s3sdk : S3Sdk σ₁) (azsdk : AzureSdk σ₂) (s0 : σ₁) (a0 : σ₂),
      main_simple s3sdk azsdk s0 a0 =
        ((create_s3_bucket_simple s3sdk s0).1 ++ (create_azure_container azsdk a0).1,
         (create_s3_bucket_simple s3sdk s0).2, (create_azure_container azsdk a0).2)) ∧
    (∀ {σ₁ σ₂ : Type} (s3sdk : S3Sdk σ₁) (azsdk : AzureSdk σ₂) (s0 : σ₁) (a0 : σ₂),
      main_rich s3sdk azsdk s0 a0 =
        ((create_s3_bucket_rich s3sdk s0).1 ++ (create_azure_container azsdk a0).1,
         (create_s3_bucket_rich s3sdk s0).2, (create_azure_container azsdk a0).2)) ∧
    (∀ {σ₁ σ₁x σ₂ : Type} (s3sdk : S3Sdk σ₁) (s3sdkx : S3Sdk σ₁x) (azsdk : AzureSdk σ₂)
        (s0 : σ₁) (s0x : σ₁x) (a0 : σ₂),
      (main_rich s3sdk azsdk s0 a0).2.2 = (main_rich s3sdkx azsdk s0x a0).2.2 ∧
      (main_simple s3sdk azsdk s0 a0).2.2 = (main_simple s3sdkx azsdk s0x a0).2.2) :=
  ⟨fun _ _ _ _ => rfl, fun _ _ _ _ => rfl, fun _ _ _ _ _ _ => ⟨rfl, rfl⟩⟩

/-- Claim C8: in the rich variant, if the initial list_buckets call
raises, then neither create_bucket nor put_object is attempted, exactly
one S3 error line is printed after the header, and the function returns
with the emulator state untouched. -/
theorem claim_C8 :
    ∀ {σ : Type} (sdk : S3Sdk σ) (s0 : σ) {e : String},
      sdk.clientInit richS3Config = .ok () →
      sdk.listBuckets s0 = .error e →
      create_s3_bucket_rich sdk s0 =
        ([Event.print s3Header, Event.callClientInit richS3Config, Event.callListBuckets,
          Event.print (s3ErrorMsg e)], s0) ∧
      (∀ b, Event.callCreateBucket b ∉ (create_s3_bucket_rich sdk s0).1) ∧
      (∀ b k body, Event.callPutObject b k body ∉ (create_s3_bucket_rich sdk s0).1) := by
  intro σ sdk s0 e h1 h2
  have heq : create_s3_bucket_rich sdk s0 =
      ([Event.print s3Header, Event.callClientInit richS3Config, Event.callListBuckets,
        Event.print (s3ErrorMsg e)], s0) := by
    simp [create_s3_bucket_rich, s3RichBody, h1, h2]
  refine ⟨heq, ?_, ?_⟩
  · intro b
    rw [heq]
    simp
  · intro b k body
    rw [heq]
    simp

theorem claim_C8_witness :
    create_s3_bucket_rich listFailS3 ⟨[], []⟩ =
      ([Event.print s3Header, Event.callClientInit richS3Config, Event.callListBuckets,
        Event.print (s3ErrorMsg connRefused)], ⟨[], []⟩) ∧
    Event.callPutObject "test-bucket" "test_file_boto.txt" "Hello Boto3" ∉
      (create_s3_bucket_rich listFailS3 ⟨[], []⟩).1 :=
  ⟨(claim_C8 listFailS3 ⟨[], []⟩ rfl rfl).1,
   (claim_C8 listFailS3 ⟨[], []⟩ rfl rfl).2.2 "test-bucket" "test_file_boto.txt" "Hello Boto3"⟩

/-- Claim C9: in the rich variant, put_object is attempted on every run
whose ensure-bucket step succeeds (creation succeeded or was downgraded
to already-exists); in particular a rerun against the emulator re-uploads
and overwrites test_file_boto.txt with Hello Boto3 rather than skipping
the upload. -/
theorem claim_C9 :
    (∀ {σ : Type} (sdk : S3Sdk σ) (s0 : σ) {bs : List String} {s1 : σ},
      sdk.clientInit richS3Config = .ok () →
      sdk.listBuckets s0 = .ok (bs, s1) →
      ((∃ s2, sdk.createBucket "test-bucket" s1 = .ok s2) ∨
       (∃ e, sdk.createBucket "test-bucket" s1 = .error e ∧ bucketExistsErr e = true)) →
      Event.callPutObject "test-bucket" "test_file_boto.txt" "Hello Boto3" ∈
        (create_s3_bucket_rich sdk s0).1) ∧
    (∀ s0 : S3State, "test-bucket" ∈ s0.buckets →
      getObject (create_s3_bucket_rich emuS3 s0).2 "test-bucket" "test_file_boto.txt" =
        some "Hello Boto3" ∧
      Event.callPutObject "test-bucket" "test_file_boto.txt" "Hello Boto3" ∈
        (create_s3_bucket_rich emuS3 s0).1) := by
  refine ⟨?_, ?_⟩
  · intro σ sdk s0 bs s1 h1 h2 h3
    rcases h3 with ⟨s2, h3⟩ | ⟨e, h3, h4⟩
    · have hm := upload_mem sdk s2
      rcases hu : s3UploadStep sdk s2 with ⟨uev, us, uo⟩
      rw [hu] at hm
      cases uo <;>
        simp_all [create_s3_bucket_rich, s3RichBody, h1, h2, h3, hu]
    · have hm := upload_mem sdk s1
      rcases hu : s3UploadStep sdk s1 with ⟨uev, us, uo⟩
      rw [hu] at hm
      cases uo <;>
        simp_all [create_s3_bucket_rich, s3RichBody, h1, h2, h3, h4, hu]
  · intro s0 h
    rw [rich_emu_run_mem s0 h]
    exact ⟨getObject_cons_self _ _, by simp⟩

theorem claim_C9_witness :
    Event.callPutObject "test-bucket" "test_file_boto.txt" "Hello Boto3" ∈
      (create_s3_bucket_rich emuS3 ⟨[], []⟩).1 ∧
    (getObject (create_s3_bucket_rich emuS3
        ⟨["test-bucket"], [("test-bucket", "test_file_boto.txt", "old-body")]⟩).2
        "test-bucket" "test_file_boto.txt" = some "Hello Boto3" ∧
      Event.callPutObject "test-bucket" "test_file_boto.txt" "Hello Boto3" ∈
        (create_s3_bucket_rich emuS3
          ⟨["test-bucket"], [("test-bucket", "test_file_boto.txt", "old-body")]⟩).1) :=
  ⟨claim_C9.1 emuS3 ⟨[], []⟩ rfl rfl (Or.inl ⟨⟨["test-bucket"], []⟩, rfl⟩),
   claim_C9.2 ⟨["test-bucket"], [("test-bucket", "test_file_boto.txt", "old-body")]⟩
     (by decide)⟩

/-- Claim C10: every invocation of each provisioner emits its fixed
header line as the very first element of its trace, hence before any SDK
call is attempted, for every oracle and state. -/
theorem claim_C10 :
    (∀ {σ : Type} (sdk : S3Sdk σ) (s0 : σ),
      ((create_s3_bucket_simple sdk s0).1).head? = some (Event.print s3Header)) ∧
    (∀ {σ : Type} (sdk : S3Sdk σ) (s0 : σ),
      ((create_s3_bucket_rich sdk s0).1).head? = some (Event.print s3Header)) ∧
    (∀ {σ : Type} (sdk : AzureSdk σ) (s0 : σ),
      ((create_azure_container sdk s0).1).head? = some (Event.print azureHeader)) := by
  refine ⟨?_, ?_, ?_⟩
  · intro σ sdk s0
    unfold create_s3_bucket_simple
    rcases h : s3SimpleBody sdk s0 with ⟨ev, s1, o⟩
    cases o <;> rfl
  · intro σ sdk s0
    unfold create_s3_bucket_rich
    rcases h : s3RichBody sdk s0 with ⟨ev, s1, o⟩
    cases o <;> rfl
  · intro σ sdk s0
    unfold create_azure_container
    rcases h : azureBody sdk s0 with ⟨ev, s1, o⟩
    cases o <;> rfl

end Infimount
